import Mathlib

/-!
Formal model of the job-orchestration and alert-evaluation pipeline of the
monitored-products service, together with proofs for its specification.

The definitions below are shallow embeddings of the Python functions in
`apps/api_service/services/alert_check_service.py`,
`apps/api_service/services/webhook_service.py`,
`apps/api_service/services/report_service.py`,
`apps/celery_service/tasks/report_tasks.py`,
`shared/database/asin_status_queries.py` and
`shared/database/report_queries.py`.

Python floats are modelled as rationals, timestamps as rational seconds,
database tables as lists of rows, and raised exceptions as `Except` values.
-/

attribute [local semireducible] Rat.add Rat.sub Rat.mul Rat.inv

/-! ## Python `round(x, 2)` (banker's rounding, used for `change_percent`) -/

/-- Python `round` to the nearest integer with ties going to the even integer. -/
def roundHalfEven (x : ℚ) : ℤ :=
  let f : ℤ := ⌊x⌋
  let r : ℚ := x - f
  if r < 1/2 then f
  else if 1/2 < r then f + 1
  else if f % 2 = 0 then f else f + 1

/-- Python `round(x, 2)`: rounding to two decimal places, ties to even. -/
def pyRound2 (x : ℚ) : ℚ := (roundHalfEven (x * 100) : ℚ) / 100

/-! ## JSON values and `json.dumps(..., sort_keys=True, ensure_ascii=False)`

`shared/database/report_queries.py` canonicalises report parameters with
`json.dumps(parameters, sort_keys=True, ensure_ascii=False)` and hashes the
UTF-8 encoding of the result with SHA-256. -/

/-- JSON values; objects keep their entries in insertion order. -/
inductive Json where
  | null : Json
  | bool : Bool → Json
  | num : ℤ → Json
  | str : String → Json
  | arr : List Json → Json
  | obj : List (String × Json) → Json

/-- Key-order comparison used by `sort_keys=True`. -/
def entryLE (a b : String × Json) : Prop := a.1 ≤ b.1

/-- Strict key-order comparison on object entries. -/
def entryLT (a b : String × Json) : Prop := a.1 < b.1

instance : DecidableRel entryLE := fun a b => inferInstanceAs (Decidable (a.1 ≤ b.1))

instance : IsTotal (String × Json) entryLE := ⟨fun a b => le_total a.1 b.1⟩

instance : IsTrans (String × Json) entryLE := ⟨fun _ _ _ h h2 => le_trans h h2⟩

instance : IsAntisymm (String × Json) entryLT :=
  ⟨fun a b h h2 => absurd (lt_trans h h2) (lt_irrefl a.1)⟩

/-- Object entries sorted by key, as done by `sort_keys=True`. -/
def sortEntries (l : List (String × Json)) : List (String × Json) :=
  l.insertionSort entryLE

/-- Hexadecimal digit characters, used for `\uXXXX` escapes and hash digests. -/
def hexDigit (n : ℕ) : Char :=
  if n = 0 then '0' else if n = 1 then '1' else if n = 2 then '2'
  else if n = 3 then '3' else if n = 4 then '4' else if n = 5 then '5'
  else if n = 6 then '6' else if n = 7 then '7' else if n = 8 then '8'
  else if n = 9 then '9' else if n = 10 then 'a' else if n = 11 then 'b'
  else if n = 12 then 'c' else if n = 13 then 'd' else if n = 14 then 'e'
  else 'f'

/-- JSON string escaping as done by `json.dumps` with `ensure_ascii=False`. -/
def escapeJsonChar (c : Char) : String :=
  if c = '"' then "\\\""
  else if c = '\\' then "\\\\"
  else if c = '\n' then "\\n"
  else if c = '\t' then "\\t"
  else if c = '\r' then "\\r"
  else if c.toNat = 8 then "\\b"
  else if c.toNat = 12 then "\\f"
  else if c.toNat < 32 then
    "\\u00" ++ String.mk [hexDigit (c.toNat / 16), hexDigit (c.toNat % 16)]
  else String.mk [c]

/-- JSON quoted-string serialisation. -/
def jsonQuote (s : String) : String :=
  "\"" ++ String.join (s.data.map escapeJsonChar) ++ "\""

mutual

/-- Serialisation of a JSON value as `json.dumps(v, sort_keys=True,
ensure_ascii=False)` produces it: default separators are `", "` and `": "`,
and object keys are emitted in sorted order at every nesting level. -/
def dumps : Json → String
  | .null => "null"
  | .bool b => if b then "true" else "false"
  | .num n => toString n
  | .str s => jsonQuote s
  | .arr xs => "[" ++ dumpsList xs ++ "]"
  | .obj xs => "\x7b" ++ dumpsEntries (sortEntries xs) ++ "\x7d"
termination_by j => sizeOf j
decreasing_by
  · simp only [Json.arr.sizeOf_spec]; omega
  · have hperm : sizeOf (sortEntries xs) = sizeOf xs :=
      (List.perm_insertionSort entryLE xs).sizeOf_eq_sizeOf
    simp only [Json.obj.sizeOf_spec]; omega

/-- Serialisation of a list of JSON values, comma separated. -/
def dumpsList : List Json → String
  | [] => ""
  | [x] => dumps x
  | x :: y :: xs => dumps x ++ ", " ++ dumpsList (y :: xs)
termination_by l => sizeOf l
decreasing_by
  · simp only [List.cons.sizeOf_spec, List.nil.sizeOf_spec]; omega
  · simp only [List.cons.sizeOf_spec]; omega
  · simp only [List.cons.sizeOf_spec]; omega

/-- Serialisation of object entries, comma separated, `": "` after each key. -/
def dumpsEntries : List (String × Json) → String
  | [] => ""
  | [(k, v)] => jsonQuote k ++ ": " ++ dumps v
  | (k, v) :: e :: xs =>
      jsonQuote k ++ ": " ++ dumps v ++ ", " ++ dumpsEntries (e :: xs)
termination_by l => sizeOf l
decreasing_by
  · simp only [List.cons.sizeOf_spec, List.nil.sizeOf_spec, Prod.mk.sizeOf_spec]; omega
  · simp only [List.cons.sizeOf_spec, Prod.mk.sizeOf_spec]; omega
  · simp only [List.cons.sizeOf_spec]; omega

end

/-! ## SHA-256 over byte lists (all words are naturals reduced mod `2 ^ 32`) -/

/-- UTF-8 encoding of a Unicode scalar value. -/
def utf8EncodeScalar (n : ℕ) : List ℕ :=
  if n < 128 then [n]
  else if n < 2048 then [192 + n / 64, 128 + n % 64]
  else if n < 65536 then [224 + n / 4096, 128 + n / 64 % 64, 128 + n % 64]
  else [240 + n / 262144, 128 + n / 4096 % 64, 128 + n / 64 % 64, 128 + n % 64]

/-- UTF-8 encoding of a string as a list of bytes. -/
def utf8Bytes (s : String) : List ℕ :=
  s.data.foldr (fun c acc => utf8EncodeScalar c.toNat ++ acc) []

/-- Right rotation of a 32-bit word. -/
def rotr32 (n x : ℕ) : ℕ := ((x >>> n) ||| (x <<< (32 - n))) % 2 ^ 32

/-- SHA-256 big sigma-0. -/
def bsig0 (x : ℕ) : ℕ := rotr32 2 x ^^^ rotr32 13 x ^^^ rotr32 22 x

/-- SHA-256 big sigma-1. -/
def bsig1 (x : ℕ) : ℕ := rotr32 6 x ^^^ rotr32 11 x ^^^ rotr32 25 x

/-- SHA-256 small sigma-0. -/
def ssig0 (x : ℕ) : ℕ := rotr32 7 x ^^^ rotr32 18 x ^^^ (x >>> 3)

/-- SHA-256 small sigma-1. -/
def ssig1 (x : ℕ) : ℕ := rotr32 17 x ^^^ rotr32 19 x ^^^ (x >>> 10)

/-- SHA-256 choice function. -/
def sha256ch (x y z : ℕ) : ℕ := (x &&& y) ^^^ ((x ^^^ (2 ^ 32 - 1)) &&& z)

/-- SHA-256 majority function. -/
def sha256maj (x y z : ℕ) : ℕ := (x &&& y) ^^^ (x &&& z) ^^^ (y &&& z)

/-- SHA-256 round constants. -/
def sha256K : List ℕ :=
  [
   1116352408, 1899447441, 3049323471, 3921009573, 961987163,
   1508970993, 2453635748, 2870763221, 3624381080, 310598401,
   607225278, 1426881987, 1925078388, 2162078206, 2614888103,
   3248222580, 3835390401, 4022224774, 264347078, 604807628,
   770255983, 1249150122, 1555081692, 1996064986, 2554220882,
   2821834349, 2952996808, 3210313671, 3336571891, 3584528711,
   113926993, 338241895, 666307205, 773529912, 1294757372,
   1396182291, 1695183700, 1986661051, 2177026350, 2456956037,
   2730485921, 2820302411, 3259730800, 3345764771, 3516065817,
   3600352804, 4094571909, 275423344, 430227734, 506948616,
   659060556, 883997877, 958139571, 1322822218, 1537002063,
   1747873779, 1955562222, 2024104815, 2227730452, 2361852424,
   2428436474, 2756734187, 3204031479, 3329325298]

/-- SHA-256 initial hash state. -/
def sha256H0 : List ℕ :=
  [
   1779033703, 3144134277, 1013904242, 2773480762,
   1359893119, 2600822924, 528734635, 1541459225]

/-- SHA-256 message padding: append `0x80`, zero bytes, and the bit length
as eight big-endian bytes, reaching a multiple of 64 bytes. -/
def sha256pad (msg : List ℕ) : List ℕ :=
  let bitLen := 8 * msg.length
  let zeros := (55 + 64 - msg.length % 64) % 64
  msg ++ 128 :: List.replicate zeros 0 ++
    [bitLen / 2 ^ 56 % 256, bitLen / 2 ^ 48 % 256, bitLen / 2 ^ 40 % 256,
     bitLen / 2 ^ 32 % 256, bitLen / 2 ^ 24 % 256, bitLen / 2 ^ 16 % 256,
     bitLen / 2 ^ 8 % 256, bitLen % 256]

/-- Big-endian grouping of bytes into 32-bit words. -/
def beWords : List ℕ → List ℕ
  | a :: b :: c :: d :: rest => (a * 2 ^ 24 + b * 2 ^ 16 + c * 2 ^ 8 + d) :: beWords rest
  | _ => []

/-- Message-schedule extension appending `fuel` further words. -/
def sha256extend (w : List ℕ) : ℕ → List ℕ
  | 0 => w
  | fuel + 1 =>
      let i := w.length
      sha256extend
        (w ++ [(ssig1 (w.getD (i - 2) 0) + w.getD (i - 7) 0 +
                ssig0 (w.getD (i - 15) 0) + w.getD (i - 16) 0) % 2 ^ 32]) fuel

/-- One SHA-256 round on an eight-word state, given `k + w` for the round. -/
def sha256round (s : List ℕ) (kw : ℕ) : List ℕ :=
  match s with
  | [a, b, c, d, e, f, g, h] =>
      let t1 := (h + bsig1 e + sha256ch e f g + kw) % 2 ^ 32
      let t2 := (bsig0 a + sha256maj a b c) % 2 ^ 32
      [(t1 + t2) % 2 ^ 32, a, b, c, (d + t1) % 2 ^ 32, e, f, g]
  | _ => s

/-- SHA-256 compression of one 64-byte block into the hash state. -/
def sha256block (h : List ℕ) (block : List ℕ) : List ℕ :=
  let w := sha256extend (beWords block) 48
  let kw := (sha256K.zip w).map (fun p => (p.1 + p.2) % 2 ^ 32)
  let s := kw.foldl sha256round h
  (h.zip s).map (fun p => (p.1 + p.2) % 2 ^ 32)

/-- Splitting a byte list into 64-byte chunks. -/
def chunks64 (l : List ℕ) : List (List ℕ) :=
  if h : l = [] then [] else l.take 64 :: chunks64 (l.drop 64)
termination_by l.length
decreasing_by
  have : l.length ≠ 0 := fun hlen => h (List.length_eq_zero.mp hlen)
  simp only [List.length_drop]; omega

/-- SHA-256 digest of a byte list, as eight 32-bit words. -/
def sha256words (msg : List ℕ) : List ℕ :=
  (chunks64 (sha256pad msg)).foldl sha256block sha256H0

/-- Lowercase hexadecimal rendering of a 32-bit word. -/
def hexWord (n : ℕ) : String :=
  String.mk [hexDigit (n / 2 ^ 28 % 16), hexDigit (n / 2 ^ 24 % 16),
    hexDigit (n / 2 ^ 20 % 16), hexDigit (n / 2 ^ 16 % 16),
    hexDigit (n / 2 ^ 12 % 16), hexDigit (n / 2 ^ 8 % 16),
    hexDigit (n / 2 ^ 4 % 16), hexDigit (n % 16)]

/-- Hex digest of SHA-256, as `hashlib.sha256(...).hexdigest()` returns it. -/
def sha256hex (msg : List ℕ) : String :=
  String.join ((sha256words msg).map hexWord)

/-- Embeds `generate_parameters_hash` of `shared/database/report_queries.py`:
SHA-256 hex digest of the UTF-8 bytes of the canonical (recursively
key-sorted) JSON serialisation of the parameters. -/
def generate_parameters_hash (parameters : Json) : String :=
  sha256hex (utf8Bytes (dumps parameters))

/-! ## Alert rules and snapshots
(`apps/api_service/services/alert_check_service.py`) -/

/-- Alert rule row as loaded from the `alert_rules` table; field names follow
the rule dictionaries used by `AlertCheckService`. -/
structure AlertRule where
  id : String
  rule_type : String
  threshold : ℚ
  change_direction : String
  threshold_type : String
deriving DecidableEq

/-- One entry of a snapshot's `bsr_data` list; `rank` is `None` when the
raw item had no parsable rank. -/
structure BsrEntry where
  rank : Option ℤ
  category : String
deriving DecidableEq

/-- Product snapshot row (`ProductSnapshotDict` in
`shared/database/model_types.py`); the audit-only `raw_data` is omitted. -/
structure ProductSnapshotDict where
  asin : String
  snapshot_date : String
  price : Option ℚ
  rating : Option ℚ
  review_count : Option ℤ
  bsr_data : List BsrEntry
deriving DecidableEq

/-- Alert record written by `create_alert_record`; the human-readable
`message` string is presentation-only and omitted here. -/
structure AlertData where
  asin : String
  rule_id : String
  previous_value : ℚ
  current_value : ℚ
  change_percent : ℚ
  snapshot_date : String
deriving DecidableEq

/-- Embeds `AlertCheckService._should_trigger_alert`: the trigger decision
given a rule and the computed change value (the `current_value` and
`previous_value` arguments of the Python method are unused there). -/
def should_trigger_alert (rule : AlertRule) (change_value : ℚ) : Bool :=
  if rule.threshold_type == "percentage" then
    if rule.change_direction == "increase" then decide (change_value ≥ rule.threshold)
    else if rule.change_direction == "decrease" then decide (change_value ≤ -rule.threshold)
    else if rule.change_direction == "any" then decide (|change_value| ≥ rule.threshold)
    else false
  else
    if rule.change_direction == "increase" then decide (change_value ≥ rule.threshold)
    else if rule.change_direction == "decrease" then decide (change_value ≤ -rule.threshold)
    else if rule.change_direction == "any" then decide (|change_value| ≥ rule.threshold)
    else false

/-- Alert record assembled by `_check_price_alerts` for a triggering rule
(`change_percent` is stored rounded to two decimals). -/
def price_alert_data (asin : String) (rule : AlertRule)
    (previous_price current_price change_percent : ℚ)
    (snapshot_date : String) : AlertData :=
  { asin := asin, rule_id := rule.id, previous_value := previous_price,
    current_value := current_price, change_percent := pyRound2 change_percent,
    snapshot_date := snapshot_date }

/-- Embeds `AlertCheckService._check_price_alerts`; `create_alert_record`
abstracts the database write, whose success gates appending the record. -/
def check_price_alerts (create_alert_record : AlertData → Bool) (asin : String)
    (latest previous : ProductSnapshotDict) (rules : List AlertRule) : List AlertData :=
  let price_rules := rules.filter (fun r => r.rule_type == "price_change")
  if price_rules.isEmpty then []
  else
    match latest.price, previous.price with
    | some current_price, some previous_price =>
        if previous_price = 0 then []
        else
          let change_percent := (current_price - previous_price) / previous_price * 100
          price_rules.filterMap (fun rule =>
            if should_trigger_alert rule change_percent then
              let a := price_alert_data asin rule previous_price current_price
                change_percent latest.snapshot_date
              if create_alert_record a then some a else none
            else none)
    | _, _ => []

/-- Alert record assembled by `_check_bsr_alerts` for a triggering rule. -/
def bsr_alert_data (asin : String) (rule : AlertRule)
    (previous_rank current_rank : ℤ) (change_percent : ℚ)
    (snapshot_date : String) : AlertData :=
  { asin := asin, rule_id := rule.id, previous_value := (previous_rank : ℚ),
    current_value := (current_rank : ℚ), change_percent := pyRound2 change_percent,
    snapshot_date := snapshot_date }

/-- Embeds `AlertCheckService._check_bsr_alerts`: compares the first (primary)
ranking of each snapshot, with the sign convention inverted relative to
price, skipping when either list is empty, a rank is missing, or the
previous rank is zero. -/
def check_bsr_alerts (create_alert_record : AlertData → Bool) (asin : String)
    (latest previous : ProductSnapshotDict) (rules : List AlertRule) : List AlertData :=
  let bsr_rules := rules.filter (fun r => r.rule_type == "bsr_change")
  if bsr_rules.isEmpty then []
  else
    match latest.bsr_data, previous.bsr_data with
    | current_main :: _, previous_main :: _ =>
        match current_main.rank, previous_main.rank with
        | some current_rank, some previous_rank =>
            if previous_rank = 0 then []
            else
              let change_percent :=
                ((previous_rank : ℚ) - (current_rank : ℚ)) / (previous_rank : ℚ) * 100
              bsr_rules.filterMap (fun rule =>
                if should_trigger_alert rule change_percent then
                  let a := bsr_alert_data asin rule previous_rank current_rank
                    change_percent latest.snapshot_date
                  if create_alert_record a then some a else none
                else none)
        | _, _ => []
    | _, _ => []

/-- Embeds `AlertCheckService._check_rating_alerts`: absolute rating change,
skipping when either rating is missing. -/
def check_rating_alerts (create_alert_record : AlertData → Bool) (asin : String)
    (latest previous : ProductSnapshotDict) (rules : List AlertRule) : List AlertData :=
  let rating_rules := rules.filter (fun r => r.rule_type == "rating_change")
  if rating_rules.isEmpty then []
  else
    match latest.rating, previous.rating with
    | some current_rating, some previous_rating =>
        let change_amount := current_rating - previous_rating
        rating_rules.filterMap (fun rule =>
          if should_trigger_alert rule change_amount then
            let a : AlertData :=
              { asin := asin, rule_id := rule.id, previous_value := previous_rating,
                current_value := current_rating, change_percent := pyRound2 change_amount,
                snapshot_date := latest.snapshot_date }
            if create_alert_record a then some a else none
          else none)
    | _, _ => []

/-- Collaborators of `AlertCheckService.check_alerts_for_asin`; each call can
raise, modelled with `Except` (the carried string is the exception text). -/
structure AlertEnv where
  get_latest_snapshot : String → Except String (Option ProductSnapshotDict)
  get_previous_snapshot : String → String → Except String (Option ProductSnapshotDict)
  get_active_rules : Except String (List AlertRule)
  create_alert_record : AlertData → Bool

/-- Body of `check_alerts_for_asin` as run inside its `try` block: fetch the
two snapshots and the active rules, then run the three per-type checks. -/
def check_alerts_body (env : AlertEnv) (asin : String) :
    Except String (List AlertData) := do
  let latest? ← env.get_latest_snapshot asin
  match latest? with
  | none => pure []
  | some latest =>
    let previous? ← env.get_previous_snapshot asin latest.snapshot_date
    match previous? with
    | none => pure []
    | some previous =>
      let rules ← env.get_active_rules
      if rules.isEmpty then pure []
      else
        pure (check_price_alerts env.create_alert_record asin latest previous rules
          ++ check_bsr_alerts env.create_alert_record asin latest previous rules
          ++ check_rating_alerts env.create_alert_record asin latest previous rules)

/-- Embeds `AlertCheckService.check_alerts_for_asin`: any exception raised in
the body is caught and an empty alert list is returned for the identifier. -/
def check_alerts_for_asin (env : AlertEnv) (asin : String) : List AlertData :=
  match check_alerts_body env asin with
  | .ok alerts => alerts
  | .error _ => []

/-- Embeds `AlertCheckService.check_alerts_for_asins`: per-identifier results
collected in input order (Python dict preserves insertion order). -/
def check_alerts_for_asins (env : AlertEnv) : List String → List (String × List AlertData)
  | [] => []
  | asin :: rest => (asin, check_alerts_for_asin env asin) :: check_alerts_for_asins env rest

/-! ## Identifier status store (`shared/database/asin_status_queries.py`)

Timestamps are rational seconds since the epoch; a calendar day is the
half-open interval `[86400 * d, 86400 * (d + 1))`. -/

/-- Row of the `asin_status` table. -/
structure AsinRow where
  asin : String
  status : String
  retry_count : ℕ
  task_timestamp : Option ℚ
deriving DecidableEq

/-- Threshold `one_day_ago` computed by `get_asins_to_scrape`:
`(now - 1 day).replace(hour=23, minute=59, second=59, microsecond=999999)`,
i.e. the last representable microsecond of the previous calendar day. -/
def one_day_ago_threshold (now : ℚ) : ℚ :=
  (⌊now / 86400⌋ - 1 : ℤ) * 86400 + 86399 + 999999 / 1000000

/-- SQL comparison `column <= bound` on a nullable timestamp column:
`NULL` compares as unknown, i.e. the row is not selected. -/
def tsLeB (t : Option ℚ) (bound : ℚ) : Bool :=
  match t with
  | none => false
  | some v => decide (v ≤ bound)

/-- SQL comparison `column < bound` on a nullable timestamp column. -/
def tsLtB (t : Option ℚ) (bound : ℚ) : Bool :=
  match t with
  | none => false
  | some v => decide (v < bound)

/-- Eligibility disjunction of the `or_` filter in `get_asins_to_scrape`. -/
def scrape_eligible (now : ℚ) (r : AsinRow) : Bool :=
  r.status == "pending"
  || (r.status == "completed" && tsLeB r.task_timestamp (one_day_ago_threshold now))
  || (r.status == "running" && tsLtB r.task_timestamp (now - 300))
  || (r.status == "failed" && decide (r.retry_count < 3))

/-- Ordering used by `order("task_timestamp", desc=False)`: ascending by
timestamp with `NULL` sorted last (PostgreSQL default for ascending order). -/
def rowLE (a b : AsinRow) : Prop :=
  match a.task_timestamp, b.task_timestamp with
  | none, none => True
  | none, some _ => False
  | some _, none => True
  | some x, some y => x ≤ y

instance : DecidableRel rowLE := fun a b => by
  unfold rowLE
  match a.task_timestamp, b.task_timestamp with
  | none, none => exact inferInstanceAs (Decidable True)
  | none, some _ => exact inferInstanceAs (Decidable False)
  | some _, none => exact inferInstanceAs (Decidable True)
  | some x, some y => exact inferInstanceAs (Decidable (x ≤ y))

instance : IsTotal AsinRow rowLE :=
  ⟨fun a b => by
    unfold rowLE
    match a.task_timestamp, b.task_timestamp with
    | none, none => exact .inl trivial
    | none, some _ => exact .inr trivial
    | some _, none => exact .inl trivial
    | some x, some y => exact le_total x y⟩

instance : IsTrans AsinRow rowLE :=
  ⟨fun a b c hab hbc => by
    unfold rowLE at *
    match ha : a.task_timestamp, hb : b.task_timestamp, hc : c.task_timestamp with
    | none, none, none => trivial
    | none, none, some _ => simp [ha, hb, hc] at hab hbc
    | none, some _, _ => simp [ha, hb] at hab
    | some _, none, none => trivial
    | some _, none, some _ => simp [hb, hc] at hbc
    | some _, some _, none => trivial
    | some x, some y, some z =>
        simp only [ha, hb, hc] at hab hbc ⊢
        exact le_trans hab hbc⟩

/-- Rows selected by `get_asins_to_scrape`: filter by the eligibility
disjunction, order ascending by `task_timestamp`, and apply the limit. -/
def selected_rows (now : ℚ) (limit : ℕ) (table : List AsinRow) : List AsinRow :=
  ((table.filter (scrape_eligible now)).insertionSort rowLE).take limit

/-- Embeds `get_asins_to_scrape` of `shared/database/asin_status_queries.py`. -/
def get_asins_to_scrape (now : ℚ) (limit : ℕ) (table : List AsinRow) : List String :=
  (selected_rows now limit table).map (·.asin)

/-- First row of the table with the given identifier (`select ... eq(asin)`;
`asin` is the primary key of the table). -/
def find_asin_row (table : List AsinRow) (asin : String) : Option AsinRow :=
  table.find? (fun r => r.asin == asin)

/-- Payload row of the bulk upsert built by `bulk_update_asin_status`: a
`none` field means the column is absent from the payload and is left
untouched by the merge-duplicates upsert. -/
structure AsinUpdate where
  asin : String
  status : String
  task_timestamp : Option ℚ
  retry_count : Option ℕ
deriving DecidableEq

/-- Result dictionary of `bulk_update_asin_status` (counts and message
string omitted). -/
structure BulkUpdateResult where
  success : Bool
  successful_asins : List String
  failed_asins : List String
deriving DecidableEq

/-- Loop of `bulk_update_asin_status` over the requested identifiers:
identifiers with no existing row are reported as failed and skipped;
otherwise an upsert payload row is prepared, with `task_timestamp` set only
for `running` (when a timestamp was supplied) and `retry_count` set to the
current value plus one only for `failed`. Returns
`(successful_asins, failed_asins, payload)` in input order. -/
def prepare_asin_updates (table : List AsinRow) (status : String)
    (task_timestamp : Option ℚ) :
    List String → List String × List String × List AsinUpdate
  | [] => ([], [], [])
  | asin :: rest =>
      let p := prepare_asin_updates table status task_timestamp rest
      match find_asin_row table asin with
      | none => (p.1, asin :: p.2.1, p.2.2)
      | some row =>
          let upd : AsinUpdate :=
            { asin := asin, status := status,
              task_timestamp := if status == "running" then task_timestamp else none,
              retry_count := if status == "failed" then some (row.retry_count + 1) else none }
          (asin :: p.1, p.2.1, upd :: p.2.2)

/-- Application of one upsert payload row to an existing table row:
only the columns present in the payload are overwritten. -/
def apply_asin_update (row : AsinRow) (upd : Option AsinUpdate) : AsinRow :=
  match upd with
  | none => row
  | some u =>
      { row with
        status := u.status,
        task_timestamp := u.task_timestamp.elim row.task_timestamp some,
        retry_count := u.retry_count.elim row.retry_count id }

/-- PostgREST upsert with `on_conflict="asin"` (merge-duplicates): every
existing row whose key appears in the payload gets the payload columns
overwritten; the payload never contains keys missing from the table, so no
row is inserted. -/
def upsert_asin_rows (table : List AsinRow) (updates : List AsinUpdate) : List AsinRow :=
  table.map (fun row => apply_asin_update row (updates.find? (fun u => u.asin == row.asin)))

/-- Embeds `bulk_update_asin_status` (bulk path, storage reachable): validate
the status, report missing identifiers as failed, and upsert the rest. -/
def bulk_update_asin_status (table : List AsinRow) (asins : List String)
    (status : String) (task_timestamp : Option ℚ) :
    BulkUpdateResult × List AsinRow :=
  if asins.isEmpty then
    ({ success := true, successful_asins := [], failed_asins := [] }, table)
  else if !(["pending", "running", "completed", "failed"].contains status) then
    ({ success := false, successful_asins := [], failed_asins := asins }, table)
  else
    let (succ, failed, updates) := prepare_asin_updates table status task_timestamp asins
    ({ success := failed.isEmpty, successful_asins := succ, failed_asins := failed },
      upsert_asin_rows table updates)

/-! ## Webhook ingestion (`apps/api_service/services/webhook_service.py`) -/

/-- Parsed dataset item as produced by the Amazon data collector. -/
structure WebhookItem where
  asin : Option String
  title : Option String
  price : Option ℚ
  rating : Option ℚ
  review_count : Option ℤ
  bsr : List BsrEntry
deriving DecidableEq

/-- Summary dictionary returned by `_process_successful_webhook` on the paths
that reach the bulk writes. -/
structure WebhookSummary where
  products_updated : ℕ
  snapshots_created : ℕ
  total_processed : ℕ
  status_update : BulkUpdateResult
  alerts_triggered : List (String × List AlertData)
deriving DecidableEq

/-- Embeds `WebhookService._process_successful_webhook` from the point where
the dataset items have been fetched: `products_success` and
`snapshots_success` are the outcomes of the two bulk writes, `check_alerts`
is the (possibly raising) alert check over the batch identifiers. Returns
the summary (`none` when the dataset was empty) and the updated status
table. -/
def process_successful_webhook (items : List WebhookItem)
    (products_success snapshots_success : Bool) (table : List AsinRow)
    (check_alerts : List String → Except String (List (String × List AlertData))) :
    Option WebhookSummary × List AsinRow :=
  if items.isEmpty then (none, table)
  else
    let asins := items.filterMap (·.asin)
    if products_success && snapshots_success then
      let (res, table2) := bulk_update_asin_status table asins "completed" none
      let alerts := match check_alerts asins with
        | .ok a => a
        | .error _ => []
      (some { products_updated := items.length, snapshots_created := items.length,
              total_processed := items.length, status_update := res,
              alerts_triggered := alerts }, table2)
    else
      let (res, table2) := bulk_update_asin_status table asins "failed" none
      (some { products_updated := if products_success then items.length else 0,
              snapshots_created := if snapshots_success then items.length else 0,
              total_processed := items.length, status_update := res,
              alerts_triggered := [] }, table2)

/-! ## Report jobs (`shared/database/report_queries.py`,
`apps/api_service/services/report_service.py`) -/

/-- Row of the `report_jobs` table; `created_at` is in rational seconds
since the epoch (`parameters` payload itself is not needed here). -/
structure ReportJob where
  id : String
  parameters_hash : String
  status : String
  created_at : ℚ
deriving DecidableEq

/-- Calendar day containing a timestamp. -/
def dayIndex (t : ℚ) : ℤ := ⌊t / 86400⌋

/-- Embeds `check_existing_report` with an explicit date: jobs with the given
hash, status `completed`, and `created_at` in
`[day 00:00:00, day 23:59:59)` — the `lt` bound is the literal
`f"{date} 23:59:59"` of the source, so the final second of the day is
outside of the window. The first matching row is returned. -/
def check_existing_report (table : List ReportJob) (parameters_hash : String)
    (d : ℤ) : Option ReportJob :=
  (table.filter (fun j =>
    j.parameters_hash == parameters_hash && j.status == "completed"
    && decide ((86400 * d : ℚ) ≤ j.created_at)
    && decide (j.created_at < (86400 * d + 86399 : ℚ)))).head?

/-- Report request after `ReportService.create_competitor_report` extracts
its fields (`main_asin`, `competitor_asins`, `window_size`, `report_type`). -/
structure ReportRequest where
  main_asin : String
  competitor_asins : List String
  window_size : ℤ
  report_type : String
deriving DecidableEq

/-- Parameters dictionary rebuilt by `create_competitor_report` before
hashing; the literal fixes the key insertion order. -/
def report_parameters_json (req : ReportRequest) : Json :=
  .obj [("main_asin", .str req.main_asin),
        ("competitor_asins", .arr (req.competitor_asins.map .str)),
        ("window_size", .num req.window_size),
        ("report_type", .str req.report_type)]

/-- Response dictionary of `create_competitor_report`. -/
structure SubmitResult where
  job_id : Option String
  status : String
  existing : Bool
  error : Option String
deriving DecidableEq

/-- Embeds `ReportService.create_competitor_report` (storage reachable,
enqueue outcome irrelevant to the response fields modelled): validate,
hash the canonical parameters, return an existing completed same-day job
when the idempotency lookup finds one, otherwise insert a fresh `pending`
job with identifier `new_id`. -/
def create_competitor_report (table : List ReportJob) (now : ℚ) (new_id : String)
    (req : ReportRequest) : SubmitResult × List ReportJob :=
  if req.main_asin == "" then
    ({ job_id := none, status := "failed", existing := false,
       error := some "missing main_asin" }, table)
  else if req.competitor_asins.isEmpty then
    ({ job_id := none, status := "failed", existing := false,
       error := some "missing competitor_asins" }, table)
  else
    let parameters_hash := generate_parameters_hash (report_parameters_json req)
    match check_existing_report table parameters_hash (dayIndex now) with
    | some existing_job =>
        ({ job_id := some existing_job.id, status := existing_job.status,
           existing := true, error := none }, table)
    | none =>
        let job : ReportJob :=
          { id := new_id, parameters_hash := parameters_hash,
            status := "pending", created_at := now }
        ({ job_id := some new_id, status := "pending", existing := false,
           error := none }, table ++ [job])

/-! ## Report generation task (`apps/celery_service/tasks/report_tasks.py`) -/

/-- Status update written through `update_report_job_status` for the job. -/
structure JobStatusUpdate where
  status : String
  error_message : Option String
deriving DecidableEq

/-- Outcome of one task delivery as seen by the queue runtime. -/
inductive TaskEnd where
  /-- The task body returned normally (`success` is the returned flag). -/
  | returned : Bool → TaskEnd
  /-- An exception escaped the task body without a retry being scheduled. -/
  | uncaught : String → TaskEnd
deriving DecidableEq

/-- Outcome of `asyncio.run(_execute_report_generation(...))` together with
the surrounding statements of the `try` block: `ok` for a success dict,
`failedResult` for a returned failure dict (carrying its `error` text), and
`raised` for an exception (e.g. the `KeyError` from `parameters["main_asin"]`
when the key is absent, or a storage error). -/
inductive ExecOutcome where
  | ok : ExecOutcome
  | failedResult : String → ExecOutcome
  | raised : String → ExecOutcome
deriving DecidableEq

/-- Error annotation written while retrying, with a 1-based attempt counter. -/
def retry_message (attempt : ℕ) (exc : String) : String :=
  "任務重試中 (第 " ++ toString attempt ++ " 次): " ++ exc

/-- Error recorded when the retry budget is exhausted. -/
def exhausted_message (exc : String) : String :=
  "任務重試次數已達上限: " ++ exc

/-- Exception raised by `self.get_retry_delay()` in the retry branch:
`ReportTask` defines no such method and `celery.Task` has none either, so
evaluating the `countdown` argument of `self.retry(...)` raises
`AttributeError` before any retry is scheduled. -/
def get_retry_delay_error : String :=
  "AttributeError: 'generate_competitor_report' object has no attribute 'get_retry_delay'"

/-- Embeds one delivery of `generate_competitor_report`: the job is first set
to `running`; on a returned failure dict the job is set to `failed` with the
returned error; on an exception with `retries < max_retries (3)` the job is
annotated as retrying (status stays `running`) and then the
`self.get_retry_delay()` call raises, so the delivery ends with an uncaught
`AttributeError`; with `retries ≥ 3` the job is set to `failed` with the
exhaustion message. Returns the status updates written for the job, in
order, and how the delivery ends. -/
def report_task_attempt (retries : ℕ) (body : ExecOutcome) :
    List JobStatusUpdate × TaskEnd :=
  match body with
  | .ok => ([{ status := "running", error_message := none }], .returned true)
  | .failedResult err =>
      ([{ status := "running", error_message := none },
        { status := "failed", error_message := some err }], .returned false)
  | .raised exc =>
      if retries < 3 then
        ([{ status := "running", error_message := none },
          { status := "running", error_message := some (retry_message (retries + 1) exc) }],
         .uncaught get_retry_delay_error)
      else
        ([{ status := "running", error_message := none },
          { status := "failed", error_message := some (exhausted_message exc) }],
         .returned false)

/-- Fields of a webhook summary other than the triggered alerts, used to
state that the processing result does not depend on the alert check. -/
def summary_core (s : WebhookSummary) : ℕ × ℕ × ℕ × BulkUpdateResult :=
  (s.products_updated, s.snapshots_created, s.total_processed, s.status_update)

/-- Eligibility predicate as the specification words it, with the completed
clause read literally as `lastTransitionAt ≤ now - 1 day`; stated for
comparison with the `scrape_eligible` filter of the source. -/
def spec_claim_eligible (now : ℚ) (r : AsinRow) : Bool :=
  r.status == "pending"
  || (r.status == "completed" && tsLeB r.task_timestamp (now - 86400))
  || (r.status == "running" && tsLtB r.task_timestamp (now - 300))
  || (r.status == "failed" && decide (r.retry_count < 3))

/-! ## Concrete scenario fixtures -/

/-- Day-1 snapshot of the end-to-end price scenario: price 100. -/
def c2_previous : ProductSnapshotDict :=
  { asin := "X", snapshot_date := "2025-01-01", price := some 100,
    rating := none, review_count := none, bsr_data := [] }

/-- Day-2 snapshot of the end-to-end price scenario: price 80. -/
def c2_latest : ProductSnapshotDict :=
  { asin := "X", snapshot_date := "2025-01-02", price := some 80,
    rating := none, review_count := none, bsr_data := [] }

/-- Active rule of the price scenario: price, decrease, threshold 15,
percentage kind. -/
def c2_rule : AlertRule :=
  { id := "rule-1", rule_type := "price_change", threshold := 15,
    change_direction := "decrease", threshold_type := "percentage" }

/-- Collaborators for the price scenario: the two snapshots above, the one
active rule, and an always-succeeding alert write. -/
def c2_env : AlertEnv :=
  { get_latest_snapshot := fun _ => .ok (some c2_latest),
    get_previous_snapshot := fun _ _ => .ok (some c2_previous),
    get_active_rules := .ok [c2_rule],
    create_alert_record := fun _ => true }

/-- The single alert event the price scenario must produce. -/
def c2_alert : AlertData :=
  { asin := "X", rule_id := "rule-1", previous_value := 100,
    current_value := 80, change_percent := -20, snapshot_date := "2025-01-02" }

/-- Day-1 snapshot of the rank scenario: primary rank 1500. -/
def c3_previous : ProductSnapshotDict :=
  { asin := "Y", snapshot_date := "2025-01-01", price := none,
    rating := none, review_count := none,
    bsr_data := [{ rank := some 1500, category := "Books" }] }

/-- Day-2 snapshot of the rank scenario: primary rank 1000. -/
def c3_latest : ProductSnapshotDict :=
  { asin := "Y", snapshot_date := "2025-01-02", price := none,
    rating := none, review_count := none,
    bsr_data := [{ rank := some 1000, category := "Books" }] }

/-- Rank rule of the rank scenario: increase direction, threshold 20. -/
def c3_rule : AlertRule :=
  { id := "rule-2", rule_type := "bsr_change", threshold := 20,
    change_direction := "increase", threshold_type := "percentage" }

/-- Collaborators for the rank scenario. -/
def c3_env : AlertEnv :=
  { get_latest_snapshot := fun _ => .ok (some c3_latest),
    get_previous_snapshot := fun _ _ => .ok (some c3_previous),
    get_active_rules := .ok [c3_rule],
    create_alert_record := fun _ => true }

/-- The alert event the rank scenario must produce:
`changePercent = round((1500 - 1000) / 1500 * 100, 2) = 33.33`. -/
def c3_alert : AlertData :=
  { asin := "Y", rule_id := "rule-2", previous_value := 1500,
    current_value := 1000, change_percent := 3333 / 100,
    snapshot_date := "2025-01-02" }

/-- Request used for the idempotency counterexample. -/
def c4_req : ReportRequest :=
  { main_asin := "A1", competitor_asins := ["B1"], window_size := 7,
    report_type := "competitor_analysis" }

/-- Completed job for `c4_req`, created at 23:59:59 of day 0 — inside the
calendar day but outside the `[00:00:00, 23:59:59)` lookup window. -/
def c4_job : ReportJob :=
  { id := "job-1",
    parameters_hash := generate_parameters_hash (report_parameters_json c4_req),
    status := "completed", created_at := 86399 }

/-- Status row used for the eligibility counterexample: completed at noon of
day 0. -/
def c5_row : AsinRow :=
  { asin := "A0", status := "completed", retry_count := 0,
    task_timestamp := some 43200 }

/-- Clock of the eligibility counterexample: 01:00 of day 1, so
`now - 1 day` is 01:00 of day 0, well before `c5_row`'s noon timestamp. -/
def c5_now : ℚ := 86400 + 3600

/-! ## Theorems -/

/-- C1: For every alert rule and every computed change value, the trigger
decision is exactly: direction `increase` triggers iff
`changeValue ≥ threshold`; direction `decrease` triggers iff
`changeValue ≤ -threshold`; direction `any` triggers iff
`|changeValue| ≥ threshold`. -/
theorem C1_trigger_directions (rule : AlertRule) (change_value : ℚ) :
    (rule.change_direction = "increase" →
      (should_trigger_alert rule change_value = true ↔ change_value ≥ rule.threshold))
    ∧ (rule.change_direction = "decrease" →
      (should_trigger_alert rule change_value = true ↔ change_value ≤ -rule.threshold))
    ∧ (rule.change_direction = "any" →
      (should_trigger_alert rule change_value = true ↔ |change_value| ≥ rule.threshold)) := by
  unfold should_trigger_alert
  refine ⟨fun h => ?_, fun h => ?_, fun h => ?_⟩ <;>
    by_cases ht : rule.threshold_type == "percentage" <;>
      simp [ht, h]

/-- Witness for C1 at a concrete increase-direction rule and change value. -/
theorem C1_trigger_directions_witness :
    should_trigger_alert c3_rule 25 = true ↔ (25:ℚ) ≥ c3_rule.threshold :=
  (C1_trigger_directions c3_rule 25).1 rfl

/-- C10: The trigger decision is independent of the rule's `threshold_type`
field: direction and threshold alone determine whether the alert triggers. -/
theorem C10_threshold_type_irrelevant (rule : AlertRule) (change_value : ℚ)
    (kind : String) :
    should_trigger_alert { rule with threshold_type := kind } change_value
      = should_trigger_alert rule change_value := by
  unfold should_trigger_alert
  by_cases h1 : kind == "percentage" <;>
    by_cases h2 : rule.threshold_type == "percentage" <;>
      simp [h1, h2]

/-- Emission pattern of the per-rule loops: a record is produced iff the
rule triggers and the database write succeeds. -/
theorem emit_eq_some {α : Type} (t c : Bool) (x a : α) :
    ((if t = true then (if c = true then some x else none) else none) = some a)
      ↔ (t = true ∧ c = true ∧ a = x) := by
  by_cases ht : t <;> by_cases hc : c <;> simp [ht, hc, eq_comm]

/-- C2: with both prices present and the previous price non-zero, the price
evaluator emits exactly the alerts of the triggering `price_change` rules,
computed from `changePercent = (latest.price - previous.price) /
previous.price * 100`; it emits nothing when a price is missing or the
previous price is zero; and on the end-to-end scenario (price 100 then 80,
one active decrease rule with threshold 15, percentage kind) it emits
exactly one alert event with `changePercent = -20`. -/
theorem C2_price_change_evaluation :
    (∀ (create : AlertData → Bool) (asin : String)
        (latest previous : ProductSnapshotDict) (rules : List AlertRule) (cp pp : ℚ),
        latest.price = some cp → previous.price = some pp → pp ≠ 0 →
        ∀ a, a ∈ check_price_alerts create asin latest previous rules ↔
          ∃ rule ∈ rules, rule.rule_type = "price_change"
            ∧ should_trigger_alert rule ((cp - pp) / pp * 100) = true
            ∧ create (price_alert_data asin rule pp cp ((cp - pp) / pp * 100)
                latest.snapshot_date) = true
            ∧ a = price_alert_data asin rule pp cp ((cp - pp) / pp * 100)
                latest.snapshot_date)
    ∧ (∀ create asin latest previous rules,
        latest.price = none ∨ previous.price = none ∨ previous.price = some 0 →
        check_price_alerts create asin latest previous rules = [])
    ∧ (check_alerts_for_asin c2_env "X" = [c2_alert]
        ∧ c2_alert.change_percent = -20) := by
  refine ⟨?_, ?_, by decide, rfl⟩
  · intro create asin latest previous rules cp pp hl hp hpp a
    by_cases hE : (rules.filter (fun r => r.rule_type == "price_change")).isEmpty
    · rw [List.isEmpty_iff] at hE
      simp only [check_price_alerts, hE, List.isEmpty_nil, if_true,
        List.not_mem_nil, false_iff]
      rintro ⟨rule, hrule, htype, -⟩
      have : rule ∈ rules.filter (fun r => r.rule_type == "price_change") :=
        List.mem_filter.mpr ⟨hrule, by simp [htype]⟩
      simp [hE] at this
    · simp only [check_price_alerts, hE, if_false, Bool.false_eq_true, hl, hp,
        if_neg hpp, List.mem_filterMap, List.mem_filter, beq_iff_eq, emit_eq_some]
      constructor
      · rintro ⟨rule, ⟨hrule, htype⟩, htrig, hcreate, ha⟩
        exact ⟨rule, hrule, htype, htrig, hcreate, ha⟩
      · rintro ⟨rule, hrule, htype, htrig, hcreate, ha⟩
        exact ⟨rule, ⟨hrule, htype⟩, htrig, hcreate, ha⟩
  · intro create asin latest previous rules h
    by_cases hE : (rules.filter (fun r => r.rule_type == "price_change")).isEmpty
    · simp [check_price_alerts, hE]
    · rcases h with h | h | h
      · cases hp : previous.price <;> simp [check_price_alerts, hE, h, hp]
      · cases hl : latest.price <;> simp [check_price_alerts, hE, h, hl]
      · cases hl : latest.price <;> simp [check_price_alerts, hE, h, hl]

/-- Witness for C2 at the end-to-end scenario inputs: the membership
characterisation at the scenario alert and the none-price skip case. -/
theorem C2_price_change_evaluation_witness :
    (c2_alert ∈ check_price_alerts (fun _ => true) "X" c2_latest c2_previous [c2_rule] ↔
      ∃ rule ∈ [c2_rule], rule.rule_type = "price_change"
        ∧ should_trigger_alert rule (((80:ℚ) - 100) / 100 * 100) = true
        ∧ (fun _ => true) (price_alert_data "X" rule 100 80 (((80:ℚ) - 100) / 100 * 100)
            c2_latest.snapshot_date) = true
        ∧ c2_alert = price_alert_data "X" rule 100 80 (((80:ℚ) - 100) / 100 * 100)
            c2_latest.snapshot_date)
    ∧ check_price_alerts (fun _ => true) "X" c3_latest c3_previous [c2_rule] = [] :=
  ⟨C2_price_change_evaluation.1 (fun _ => true) "X" c2_latest c2_previous [c2_rule]
      80 100 rfl rfl (by simp) c2_alert,
   C2_price_change_evaluation.2.1 (fun _ => true) "X" c3_latest c3_previous [c2_rule]
      (Or.inl rfl)⟩

/-- C3: rank evaluation uses the first (primary) ranking of each of the two
observations, with `changePercent = (previous.rank - latest.rank) /
previous.rank * 100` (sign inverted relative to price, so a numerically
lower rank gives a positive change); it emits nothing when a primary rank
is missing or the previous rank is zero; and with previous rank 1500 and
latest rank 1000 it emits exactly one alert with
`changePercent = 33.33 ≈ 33.33`, triggering the increase rule with
threshold 20. -/
theorem C3_bsr_change_evaluation :
    (∀ (create : AlertData → Bool) (asin : String)
        (latest previous : ProductSnapshotDict) (rules : List AlertRule)
        (ce pe : BsrEntry) (ct pt : List BsrEntry) (cr pr : ℤ),
        latest.bsr_data = ce :: ct → previous.bsr_data = pe :: pt →
        ce.rank = some cr → pe.rank = some pr → pr ≠ 0 →
        ∀ a, a ∈ check_bsr_alerts create asin latest previous rules ↔
          ∃ rule ∈ rules, rule.rule_type = "bsr_change"
            ∧ should_trigger_alert rule (((pr:ℚ) - (cr:ℚ)) / (pr:ℚ) * 100) = true
            ∧ create (bsr_alert_data asin rule pr cr (((pr:ℚ) - (cr:ℚ)) / (pr:ℚ) * 100)
                latest.snapshot_date) = true
            ∧ a = bsr_alert_data asin rule pr cr (((pr:ℚ) - (cr:ℚ)) / (pr:ℚ) * 100)
                latest.snapshot_date)
    ∧ (∀ create asin latest previous rules,
        (latest.bsr_data = [] ∨ previous.bsr_data = []
          ∨ (∃ ce ct, latest.bsr_data = ce :: ct ∧ ce.rank = none)
          ∨ (∃ pe pt, previous.bsr_data = pe :: pt ∧ pe.rank = none)
          ∨ (∃ pe pt, previous.bsr_data = pe :: pt ∧ pe.rank = some 0)) →
        check_bsr_alerts create asin latest previous rules = [])
    ∧ (check_alerts_for_asin c3_env "Y" = [c3_alert]
        ∧ c3_alert.change_percent = 3333 / 100
        ∧ 0 < c3_alert.change_percent) := by
  refine ⟨?_, ?_, by decide, rfl, by decide⟩
  · intro create asin latest previous rules ce pe ct pt cr pr hl hp hcr hpr hpr0 a
    by_cases hE : (rules.filter (fun r => r.rule_type == "bsr_change")).isEmpty
    · rw [List.isEmpty_iff] at hE
      simp only [check_bsr_alerts, hE, List.isEmpty_nil, if_true,
        List.not_mem_nil, false_iff]
      rintro ⟨rule, hrule, htype, -⟩
      have : rule ∈ rules.filter (fun r => r.rule_type == "bsr_change") :=
        List.mem_filter.mpr ⟨hrule, by simp [htype]⟩
      simp [hE] at this
    · simp only [check_bsr_alerts, hE, if_false, Bool.false_eq_true, hl, hp, hcr, hpr,
        if_neg hpr0, List.mem_filterMap, List.mem_filter, beq_iff_eq, emit_eq_some]
      constructor
      · rintro ⟨rule, ⟨hrule, htype⟩, htrig, hcreate, ha⟩
        exact ⟨rule, hrule, htype, htrig, hcreate, ha⟩
      · rintro ⟨rule, hrule, htype, htrig, hcreate, ha⟩
        exact ⟨rule, ⟨hrule, htype⟩, htrig, hcreate, ha⟩
  · intro create asin latest previous rules h
    by_cases hE : (rules.filter (fun r => r.rule_type == "bsr_change")).isEmpty
    · simp [check_bsr_alerts, hE]
    · rcases h with h | h | ⟨ce, ct, h, hr⟩ | ⟨pe, pt, h, hr⟩ | ⟨pe, pt, h, hr⟩
      · cases hp : previous.bsr_data <;> simp [check_bsr_alerts, hE, h, hp]
      · cases hl : latest.bsr_data <;> simp [check_bsr_alerts, hE, h, hl]
      · cases hp : previous.bsr_data <;>
          simp only [check_bsr_alerts, hE, Bool.false_eq_true, if_false, h, hp] <;>
          first
            | rfl
            | (rename_i pe2 pt2
               cases hpr : pe2.rank <;> simp [hr, hpr])
      · cases hl : latest.bsr_data <;>
          simp only [check_bsr_alerts, hE, Bool.false_eq_true, if_false, h, hl] <;>
          first
            | rfl
            | (rename_i ce2 ct2
               cases hcr : ce2.rank <;> simp [hr, hcr])
      · cases hl : latest.bsr_data <;>
          simp only [check_bsr_alerts, hE, Bool.false_eq_true, if_false, h, hl] <;>
          first
            | rfl
            | (rename_i ce2 ct2
               cases hcr : ce2.rank <;> simp [hr, hcr])

/-- Witness for C3 at the rank-improvement scenario inputs. -/
theorem C3_bsr_change_evaluation_witness :
    (c3_alert ∈ check_bsr_alerts (fun _ => true) "Y" c3_latest c3_previous [c3_rule] ↔
      ∃ rule ∈ [c3_rule], rule.rule_type = "bsr_change"
        ∧ should_trigger_alert rule
            ((((1500:ℤ):ℚ) - ((1000:ℤ):ℚ)) / ((1500:ℤ):ℚ) * 100) = true
        ∧ (fun _ => true) (bsr_alert_data "Y" rule 1500 1000
            ((((1500:ℤ):ℚ) - ((1000:ℤ):ℚ)) / ((1500:ℤ):ℚ) * 100)
            c3_latest.snapshot_date) = true
        ∧ c3_alert = bsr_alert_data "Y" rule 1500 1000
            ((((1500:ℤ):ℚ) - ((1000:ℤ):ℚ)) / ((1500:ℤ):ℚ) * 100)
            c3_latest.snapshot_date)
    ∧ check_bsr_alerts (fun _ => true) "Y" c2_latest c2_previous [c3_rule] = [] :=
  ⟨C3_bsr_change_evaluation.1 (fun _ => true) "Y" c3_latest c3_previous [c3_rule]
      ⟨some 1000, "Books"⟩ ⟨some 1500, "Books"⟩ [] [] 1000 1500
      rfl rfl rfl rfl (by decide) c3_alert,
   C3_bsr_change_evaluation.2.1 (fun _ => true) "Y" c2_latest c2_previous [c3_rule]
      (Or.inl rfl)⟩

/-- C8: demonstration of the divergence on the retry path: one delivery of
`generate_competitor_report` with `retries = 0` whose body raises writes the
`running` status with the attempt-counter annotation and then ends with an
uncaught `AttributeError` from the nonexistent `self.get_retry_delay()`, so
no retry is scheduled and no `failed` status is ever written for the job. -/
theorem C8_retry_attribute_error :
    report_task_attempt 0 (.raised "KeyError: main_asin")
      = ([{ status := "running", error_message := none },
          { status := "running",
            error_message := some "任務重試中 (第 1 次): KeyError: main_asin" }],
         .uncaught get_retry_delay_error)
    ∧ ((report_task_attempt 0 (.raised "KeyError: main_asin")).1.map (·.status))
      = ["running", "running"] := by
  exact ⟨by decide, by decide⟩

/-- C9: a failure inside the alert evaluation of an identifier is caught and
yields an empty alert list for that identifier; the batch loop still
processes every identifier; and the webhook processing result — updated
status table and summary apart from its alert field — is the same whatever
the alert check returns or raises. -/
theorem C9_alert_failures_isolated :
    (∀ (env : AlertEnv) (asin : String) (e : String),
        check_alerts_body env asin = .error e → check_alerts_for_asin env asin = [])
    ∧ (∀ (env : AlertEnv) (asins : List String),
        check_alerts_for_asins env asins
          = asins.map (fun a => (a, check_alerts_for_asin env a)))
    ∧ (∀ (env : AlertEnv) (asins : List String),
        (check_alerts_for_asins env asins).map Prod.fst = asins)
    ∧ (∀ (items : List WebhookItem) (pOk sOk : Bool) (table : List AsinRow)
        (ca1 ca2 : List String → Except String (List (String × List AlertData))),
        (process_successful_webhook items pOk sOk table ca1).2
          = (process_successful_webhook items pOk sOk table ca2).2
        ∧ Option.map summary_core (process_successful_webhook items pOk sOk table ca1).1
          = Option.map summary_core (process_successful_webhook items pOk sOk table ca2).1) := by
  have hmap : ∀ (env : AlertEnv) (asins : List String),
      check_alerts_for_asins env asins
        = asins.map (fun a => (a, check_alerts_for_asin env a)) := by
    intro env asins
    induction asins with
    | nil => rfl
    | cons a rest ih => simp [check_alerts_for_asins, ih]
  refine ⟨?_, hmap, ?_, ?_⟩
  · intro env asin e h
    unfold check_alerts_for_asin
    rw [h]
  · intro env asins
    rw [hmap, List.map_map]
    exact List.map_congr_left (fun a _ => rfl) |>.trans (List.map_id asins)
  · intro items pOk sOk table ca1 ca2
    by_cases hi : items.isEmpty <;> by_cases hps : pOk && sOk <;>
      first
        | exact ⟨rfl, rfl⟩
        | simp [process_successful_webhook, hi, hps, summary_core]

/-- Payload application never changes the key column. -/
theorem apply_asin_update_asin (row : AsinRow) (u : Option AsinUpdate) :
    (apply_asin_update row u).asin = row.asin := by
  cases u <;> rfl

/-- The upsert leaves the key column of the table unchanged: no row is
created or deleted. -/
theorem upsert_asin_rows_asins (table : List AsinRow) (ups : List AsinUpdate) :
    (upsert_asin_rows table ups).map (·.asin) = table.map (·.asin) := by
  unfold upsert_asin_rows
  rw [List.map_map]
  exact List.map_congr_left (fun r _ => apply_asin_update_asin r _)

/-- A looked-up row carries the looked-up key. -/
theorem find_asin_row_some_asin {table : List AsinRow} {a : String} {r : AsinRow}
    (h : find_asin_row table a = some r) : r.asin = a := by
  have := List.find?_some h
  simpa using this

/-- Looking up the key of a member row succeeds when keys are unique. -/
theorem find_asin_row_self {table : List AsinRow} {r : AsinRow}
    (hn : (table.map (·.asin)).Nodup) (h : r ∈ table) :
    find_asin_row table r.asin = some r := by
  induction table with
  | nil => cases h
  | cons x xs ih =>
    rw [List.map_cons, List.nodup_cons] at hn
    rcases List.mem_cons.mp h with rfl | hmem
    · unfold find_asin_row
      rw [List.find?_cons_of_pos _ (by simp)]
    · have hx : (x.asin == r.asin) = false := by
        simp only [beq_eq_false_iff_ne, ne_eq]
        intro he
        exact hn.1 (he ▸ List.mem_map_of_mem (·.asin) hmem)
      unfold find_asin_row
      rw [List.find?_cons_of_neg _ (by simp [hx])]
      exact ih hn.2 hmem

/-- Lookup in the upserted table: the first row with the key gets the first
payload entry with the key applied to it. -/
theorem find_asin_row_upsert (table : List AsinRow) (ups : List AsinUpdate)
    (a : String) {r : AsinRow} (h : find_asin_row table a = some r) :
    find_asin_row (upsert_asin_rows table ups) a
      = some (apply_asin_update r (ups.find? (fun u => u.asin == a))) := by
  have ha : r.asin = a := find_asin_row_some_asin h
  unfold find_asin_row upsert_asin_rows at *
  rw [List.find?_map]
  have hpred : ((fun row => (row : AsinRow).asin == a) ∘
      (fun row => apply_asin_update row (ups.find? (fun u => u.asin == row.asin))))
      = fun row => row.asin == a := by
    funext row
    simp [Function.comp, apply_asin_update_asin]
  rw [hpred, h]
  simp only [Option.map]
  rw [ha]

/-- Every payload entry built by the preparation loop carries the requested
status. -/
theorem prepare_updates_status (table : List AsinRow) (status : String)
    (ts : Option ℚ) :
    ∀ (asins : List String) (u : AsinUpdate),
      u ∈ (prepare_asin_updates table status ts asins).2.2 → u.status = status := by
  intro asins
  induction asins with
  | nil =>
    intro u hu
    simp [prepare_asin_updates] at hu
  | cons b rest ih =>
    intro u hu
    unfold prepare_asin_updates at hu
    cases hfb : find_asin_row table b with
    | none =>
      rw [hfb] at hu
      exact ih u hu
    | some row =>
      rw [hfb] at hu
      rcases List.mem_cons.mp hu with rfl | hm
      · rfl
      · exact ih u hm

/-- The payload entry found for a requested identifier with an existing row. -/
theorem prepare_updates_find (table : List AsinRow) (status : String)
    (ts : Option ℚ) :
    ∀ (asins : List String) (a : String) (r0 : AsinRow), a ∈ asins →
      find_asin_row table a = some r0 →
      (prepare_asin_updates table status ts asins).2.2.find? (fun u => u.asin == a)
        = some { asin := a, status := status,
                 task_timestamp := if status == "running" then ts else none,
                 retry_count := if status == "failed" then some (r0.retry_count + 1)
                   else none } := by
  intro asins
  induction asins with
  | nil =>
    intro a r0 ha
    cases ha
  | cons b rest ih =>
    intro a r0 ha hfind
    unfold prepare_asin_updates
    by_cases hba : b = a
    · subst hba
      rw [hfind]
      rw [List.find?_cons_of_pos _ (by simp)]
    · cases hfb : find_asin_row table b with
      | none =>
        exact ih a r0 ((List.mem_cons.mp ha).resolve_left (fun he => hba he.symm)) hfind
      | some rb =>
        rw [List.find?_cons_of_neg _ (by simp [hba])]
        exact ih a r0 ((List.mem_cons.mp ha).resolve_left (fun he => hba he.symm)) hfind

/-- No payload entry is built for identifiers outside the request. -/
theorem prepare_updates_find_none (table : List AsinRow) (status : String)
    (ts : Option ℚ) :
    ∀ (asins : List String) (a : String), a ∉ asins →
      (prepare_asin_updates table status ts asins).2.2.find? (fun u => u.asin == a)
        = none := by
  intro asins
  induction asins with
  | nil =>
    intro a ha
    rfl
  | cons b rest ih =>
    intro a ha
    have hb : b ≠ a := fun he => ha (he ▸ List.mem_cons_self b rest)
    have ha2 : a ∉ rest := fun hm => ha (List.mem_cons_of_mem b hm)
    unfold prepare_asin_updates
    cases hfb : find_asin_row table b with
    | none => exact ih a ha2
    | some rb =>
      rw [List.find?_cons_of_neg _ (by simp [hb])]
      exact ih a ha2

/-- Identifiers with no existing row are collected in the failed list. -/
theorem prepare_updates_failed (table : List AsinRow) (status : String)
    (ts : Option ℚ) :
    ∀ (asins : List String) (a : String), a ∈ asins →
      find_asin_row table a = none →
      a ∈ (prepare_asin_updates table status ts asins).2.1 := by
  intro asins
  induction asins with
  | nil =>
    intro a ha
    cases ha
  | cons b rest ih =>
    intro a ha hfind
    unfold prepare_asin_updates
    by_cases hba : b = a
    · subst hba
      rw [hfind]
      exact List.mem_cons_self _ _
    · have ha2 : a ∈ rest := (List.mem_cons.mp ha).resolve_left (fun he => hba he.symm)
      cases hfb : find_asin_row table b with
      | none => exact List.mem_cons_of_mem _ (ih a ha2 hfind)
      | some rb => exact ih a ha2 hfind

/-- C6: for every batch status transition, identifiers missing from the
store are reported in the failed result set and the store's key set is
never extended; a transition to `failed` increments the identifier's retry
count by exactly one; a transition to any other status leaves the retry
count unchanged; and a transition to `running` records the supplied
timestamp as the identifier's last transition time. -/
theorem C6_batch_status_transition :
    (∀ (table : List AsinRow) (asins : List String) (status : String) (ts : Option ℚ),
        (bulk_update_asin_status table asins status ts).2.map (·.asin)
          = table.map (·.asin))
    ∧ (∀ (table : List AsinRow) (asins : List String) (status : String)
        (ts : Option ℚ) (a : String), a ∈ asins → find_asin_row table a = none →
        a ∈ (bulk_update_asin_status table asins status ts).1.failed_asins)
    ∧ (∀ (table : List AsinRow) (asins : List String) (ts : Option ℚ) (r : AsinRow),
        (table.map (·.asin)).Nodup → r ∈ table → r.asin ∈ asins →
        find_asin_row (bulk_update_asin_status table asins "failed" ts).2 r.asin
          = some { r with status := "failed", retry_count := r.retry_count + 1 })
    ∧ (∀ (table : List AsinRow) (asins : List String) (status : String)
        (ts : Option ℚ) (r : AsinRow),
        (table.map (·.asin)).Nodup → r ∈ table → status ≠ "failed" →
        ∃ r2, find_asin_row (bulk_update_asin_status table asins status ts).2 r.asin
            = some r2 ∧ r2.retry_count = r.retry_count ∧ r2.asin = r.asin)
    ∧ (∀ (table : List AsinRow) (asins : List String) (t : ℚ) (r : AsinRow),
        (table.map (·.asin)).Nodup → r ∈ table → r.asin ∈ asins →
        find_asin_row (bulk_update_asin_status table asins "running" (some t)).2 r.asin
          = some { r with status := "running", task_timestamp := some t }) := by
  have hnonempty : ∀ {asins : List String} {a : String}, a ∈ asins →
      asins.isEmpty = false := by
    intro asins a ha
    cases asins
    · cases ha
    · rfl
  refine ⟨?_, ?_, ?_, ?_, ?_⟩
  · intro table asins status ts
    unfold bulk_update_asin_status
    by_cases h1 : asins.isEmpty
    · simp [h1]
    · by_cases h2 : (!(["pending", "running", "completed", "failed"].contains status)) = true
      · rw [if_neg h1, if_pos h2]
      · rw [if_neg h1, if_neg h2]
        exact upsert_asin_rows_asins table _
  · intro table asins status ts a ha hfind
    unfold bulk_update_asin_status
    rw [if_neg (by simp [hnonempty ha])]
    by_cases h2 : (!(["pending", "running", "completed", "failed"].contains status)) = true
    · rw [if_pos h2]
      exact ha
    · rw [if_neg h2]
      exact prepare_updates_failed table status ts asins a ha hfind
  · intro table asins ts r hn hr hmem
    have hself := find_asin_row_self hn hr
    unfold bulk_update_asin_status
    rw [if_neg (by simp [hnonempty hmem]), if_neg (by decide)]
    rw [find_asin_row_upsert _ _ _ hself]
    rw [prepare_updates_find table "failed" ts asins r.asin r hmem hself]
    simp [apply_asin_update]
  · intro table asins status ts r hn hr hstat
    have hself := find_asin_row_self hn hr
    unfold bulk_update_asin_status
    by_cases h1 : asins.isEmpty
    · exact ⟨r, by rw [if_pos h1]; exact hself, rfl, rfl⟩
    · rw [if_neg h1]
      by_cases h2 : (!(["pending", "running", "completed", "failed"].contains status)) = true
      · exact ⟨r, by rw [if_pos h2]; exact hself, rfl, rfl⟩
      · rw [if_neg h2]
        by_cases hmem : r.asin ∈ asins
        · rw [find_asin_row_upsert _ _ _ hself]
          rw [prepare_updates_find table status ts asins r.asin r hmem hself]
          have hsf : (status == "failed") = false := by
            simp [hstat]
          refine ⟨_, rfl, ?_, ?_⟩
          · simp [apply_asin_update, hsf]
          · simp [apply_asin_update]
        · rw [find_asin_row_upsert _ _ _ hself]
          rw [prepare_updates_find_none table status ts asins r.asin hmem]
          exact ⟨r, rfl, rfl, rfl⟩
  · intro table asins t r hn hr hmem
    have hself := find_asin_row_self hn hr
    unfold bulk_update_asin_status
    rw [if_neg (by simp [hnonempty hmem]), if_neg (by decide)]
    rw [find_asin_row_upsert _ _ _ hself]
    rw [prepare_updates_find table "running" (some t) asins r.asin r hmem hself]
    simp [apply_asin_update]

/-- Witness for C6 at a one-row store: a missing identifier lands in the
failed set, `failed` bumps the retry count to 1, and `running` stores the
supplied timestamp. -/
theorem C6_batch_status_transition_witness :
    ("B" ∈ (bulk_update_asin_status
        [⟨"A", "pending", 0, none⟩] ["A", "B"] "completed" none).1.failed_asins)
    ∧ find_asin_row (bulk_update_asin_status
        [⟨"A", "pending", 0, none⟩] ["A", "B"] "failed" none).2 "A"
        = some ⟨"A", "failed", 1, none⟩
    ∧ find_asin_row (bulk_update_asin_status
        [⟨"A", "pending", 0, none⟩] ["A"] "running" (some 12)).2 "A"
        = some ⟨"A", "running", 0, some 12⟩ :=
  ⟨C6_batch_status_transition.2.1 [⟨"A", "pending", 0, none⟩] ["A", "B"]
      "completed" none "B" (by decide) rfl,
   C6_batch_status_transition.2.2.1 [⟨"A", "pending", 0, none⟩] ["A", "B"]
      none ⟨"A", "pending", 0, none⟩ (by decide) (by decide) (by decide),
   C6_batch_status_transition.2.2.2.2 [⟨"A", "pending", 0, none⟩] ["A"]
      12 ⟨"A", "pending", 0, none⟩ (by decide) (by decide) (by decide)⟩

/-- Every stored row whose key was in a bulk transition request ends with
the requested status (for a valid status). -/
theorem bulk_update_status_of_mem (table : List AsinRow) (asins : List String)
    (status : String) (ts : Option ℚ)
    (hval : (!(["pending", "running", "completed", "failed"].contains status)) = false)
    (row : AsinRow)
    (hrow : row ∈ (bulk_update_asin_status table asins status ts).2)
    (hmem : row.asin ∈ asins) : row.status = status := by
  have h1 : asins.isEmpty = false := by
    cases asins
    · cases hmem
    · rfl
  unfold bulk_update_asin_status at hrow
  rw [if_neg (by simp [h1]),
    if_neg (by simp only [hval]; exact Bool.false_ne_true)] at hrow
  unfold upsert_asin_rows at hrow
  rcases List.mem_map.mp hrow with ⟨r, hr, hrew⟩
  have hasin : row.asin = r.asin := by
    rw [← hrew]
    exact apply_asin_update_asin r _
  have hsome : ∃ r0, find_asin_row table r.asin = some r0 := by
    have : (find_asin_row table r.asin).isSome := by
      unfold find_asin_row
      rw [List.find?_isSome]
      exact ⟨r, hr, by simp⟩
    exact Option.isSome_iff_exists.mp this
  rcases hsome with ⟨r0, hr0⟩
  rw [prepare_updates_find table status ts asins r.asin r0 (hasin ▸ hmem) hr0] at hrew
  rw [← hrew]
  rfl

/-- C7: within one webhook ingestion, the batch outcome is all-or-nothing:
when both bulk writes succeed every batch identifier present in the store
is transitioned to `completed`, when either fails every one is transitioned
to `failed`, and two batch identifiers never end with different statuses. -/
theorem C7_webhook_all_or_nothing (items : List WebhookItem) (pOk sOk : Bool)
    (table : List AsinRow)
    (ca : List String → Except String (List (String × List AlertData))) :
    (∀ row ∈ (process_successful_webhook items pOk sOk table ca).2,
        row.asin ∈ items.filterMap (·.asin) →
        row.status = (if pOk && sOk then "completed" else "failed"))
    ∧ ((if pOk && sOk then "completed" else "failed") = "completed"
        ↔ (pOk = true ∧ sOk = true))
    ∧ (∀ row1 ∈ (process_successful_webhook items pOk sOk table ca).2,
        ∀ row2 ∈ (process_successful_webhook items pOk sOk table ca).2,
        row1.asin ∈ items.filterMap (·.asin) → row2.asin ∈ items.filterMap (·.asin) →
        row1.status = row2.status) := by
  have hmain : ∀ row ∈ (process_successful_webhook items pOk sOk table ca).2,
      row.asin ∈ items.filterMap (·.asin) →
      row.status = (if pOk && sOk then "completed" else "failed") := by
    intro row hrow hmem
    unfold process_successful_webhook at hrow
    by_cases hi : items.isEmpty
    · rw [List.isEmpty_iff.mp hi] at hmem
      cases hmem
    · rw [if_neg (by simp [hi])] at hrow
      by_cases hps : pOk && sOk
      · rw [if_pos hps] at hrow
        rw [if_pos hps]
        exact bulk_update_status_of_mem table _ "completed" none (by decide)
          row hrow hmem
      · rw [if_neg hps] at hrow
        rw [if_neg hps]
        exact bulk_update_status_of_mem table _ "failed" none (by decide)
          row hrow hmem
  refine ⟨hmain, ?_, ?_⟩
  · by_cases hps : pOk && sOk
    · rw [if_pos hps]
      simp only [true_iff]
      exact Bool.and_eq_true_iff.mp hps
    · rw [if_neg hps]
      constructor
      · intro h
        exact absurd h (by decide)
      · intro h
        exact absurd (by simp [h.1, h.2]) hps
  · intro row1 h1 row2 h2 hm1 hm2
    rw [hmain row1 h1 hm1, hmain row2 h2 hm2]

/-- Witness for C7: a two-write batch where the snapshot write fails leaves
the stored batch row with status `failed`. -/
theorem C7_webhook_all_or_nothing_witness :
    (⟨"A", "failed", 1, none⟩ : AsinRow).status
      = (if true && false then "completed" else "failed") :=
  (C7_webhook_all_or_nothing [⟨some "A", none, none, none, none, []⟩] true false
      [⟨"A", "running", 0, none⟩] (fun _ => .ok [])).1
    ⟨"A", "failed", 1, none⟩ (by decide) (by decide)

/-- The selection filter agrees with the eligibility disjunction, with the
completed clause bounded by the end of the previous calendar day. -/
theorem scrape_eligible_iff (now : ℚ) (r : AsinRow) :
    scrape_eligible now r = true ↔
      (r.status = "pending"
        ∨ (r.status = "completed"
            ∧ ∃ t, r.task_timestamp = some t ∧ t ≤ one_day_ago_threshold now)
        ∨ (r.status = "running" ∧ ∃ t, r.task_timestamp = some t ∧ t < now - 300)
        ∨ (r.status = "failed" ∧ r.retry_count < 3)) := by
  cases ht : r.task_timestamp <;>
    simp [scrape_eligible, tsLeB, tsLtB, ht, or_assoc]

/-- C5 (amended): eligible-identifier selection returns only rows satisfying
the disjunction — `pending`, or `completed` with `lastTransitionAt` at or
before 23:59:59.999999 of the previous calendar day, or `running` with
`lastTransitionAt` older than five minutes, or `failed` with fewer than 3
retries — ordered ascending by `lastTransitionAt`, bounded by the limit,
and never containing a `running` row from the last five minutes. -/
theorem C5_eligible_selection (now : ℚ) (limit : ℕ) (table : List AsinRow) :
    (∀ r ∈ selected_rows now limit table, r ∈ table ∧
        (r.status = "pending"
          ∨ (r.status = "completed"
              ∧ ∃ t, r.task_timestamp = some t ∧ t ≤ one_day_ago_threshold now)
          ∨ (r.status = "running" ∧ ∃ t, r.task_timestamp = some t ∧ t < now - 300)
          ∨ (r.status = "failed" ∧ r.retry_count < 3)))
    ∧ (selected_rows now limit table).Pairwise (fun a b => ∀ ta tb,
        a.task_timestamp = some ta → b.task_timestamp = some tb → ta ≤ tb)
    ∧ (get_asins_to_scrape now limit table).length ≤ limit
    ∧ (∀ r ∈ selected_rows now limit table,
        ¬(r.status = "running" ∧ ∃ t, r.task_timestamp = some t ∧ now - 300 ≤ t)) := by
  have hmem : ∀ r ∈ selected_rows now limit table,
      r ∈ table ∧ scrape_eligible now r = true := by
    intro r hr
    have h2 : r ∈ (table.filter (scrape_eligible now)).insertionSort rowLE :=
      List.mem_of_mem_take hr
    rw [List.mem_insertionSort] at h2
    exact ⟨(List.mem_filter.mp h2).1, (List.mem_filter.mp h2).2⟩
  refine ⟨?_, ?_, ?_, ?_⟩
  · intro r hr
    exact ⟨(hmem r hr).1, (scrape_eligible_iff now r).mp (hmem r hr).2⟩
  · have hsorted : ((table.filter (scrape_eligible now)).insertionSort rowLE).Sorted rowLE :=
      List.sorted_insertionSort rowLE _
    have htake : (selected_rows now limit table).Pairwise rowLE :=
      hsorted.sublist (List.take_sublist limit _)
    refine htake.imp ?_
    intro a b h ta tb hta htb
    unfold rowLE at h
    rw [hta, htb] at h
    exact h
  · unfold get_asins_to_scrape
    rw [List.length_map]
    exact List.length_take_le limit _
  · intro r hr
    rintro ⟨hstat, t, hts, hge⟩
    rcases (scrape_eligible_iff now r).mp (hmem r hr).2 with h | ⟨h, -⟩ | ⟨-, t2, hts2, hlt⟩ | ⟨h, -⟩
    · rw [hstat] at h
      exact absurd h (by decide)
    · rw [hstat] at h
      exact absurd h (by decide)
    · rw [hts] at hts2
      cases hts2
      exact absurd hge (not_le.mpr hlt)
    · rw [hstat] at h
      exact absurd h (by decide)

/-- Witness for C5 at a three-row store. -/
theorem C5_eligible_selection_witness :
    ((⟨"P", "pending", 0, none⟩ : AsinRow) ∈ [(⟨"P", "pending", 0, none⟩ : AsinRow),
        ⟨"R", "running", 0, some 89000⟩] ∧
      ((⟨"P", "pending", 0, none⟩ : AsinRow).status = "pending"
        ∨ ((⟨"P", "pending", 0, none⟩ : AsinRow).status = "completed"
            ∧ ∃ t, (⟨"P", "pending", 0, none⟩ : AsinRow).task_timestamp = some t
              ∧ t ≤ one_day_ago_threshold c5_now)
        ∨ ((⟨"P", "pending", 0, none⟩ : AsinRow).status = "running"
            ∧ ∃ t, (⟨"P", "pending", 0, none⟩ : AsinRow).task_timestamp = some t
              ∧ t < c5_now - 300)
        ∨ ((⟨"P", "pending", 0, none⟩ : AsinRow).status = "failed"
            ∧ (⟨"P", "pending", 0, none⟩ : AsinRow).retry_count < 3)))
    ∧ ¬((⟨"P", "pending", 0, none⟩ : AsinRow).status = "running"
        ∧ ∃ t, (⟨"P", "pending", 0, none⟩ : AsinRow).task_timestamp = some t
          ∧ c5_now - 300 ≤ t) :=
  ⟨(C5_eligible_selection c5_now 5
      [⟨"P", "pending", 0, none⟩, ⟨"R", "running", 0, some 89000⟩]).1
      ⟨"P", "pending", 0, none⟩ (by decide),
   (C5_eligible_selection c5_now 5
      [⟨"P", "pending", 0, none⟩, ⟨"R", "running", 0, some 89000⟩]).2.2.2
      ⟨"P", "pending", 0, none⟩ (by decide)⟩

/-- Counterexample for C5 as literally stated: at 01:00 of day 1 a row
completed at noon of day 0 is returned by the selection (the code bounds the
completed clause by the end of the previous day), although its transition
time is not `≤ now - 1 day` as the claim demands. -/
theorem C5_eligibility_counterexample :
    get_asins_to_scrape c5_now 100 [c5_row] = ["A0"]
    ∧ spec_claim_eligible c5_now c5_row = false := by
  exact ⟨by decide, by decide⟩

/-- Canonical key-sorting is permutation-invariant when keys are unique, so
`sort_keys=True` erases the insertion order of object entries. -/
theorem sortEntries_eq_of_perm {l₁ l₂ : List (String × Json)} (hp : l₁.Perm l₂)
    (hn : (l₁.map Prod.fst).Nodup) : sortEntries l₁ = sortEntries l₂ := by
  have hperm : (sortEntries l₁).Perm (sortEntries l₂) :=
    (List.perm_insertionSort entryLE l₁).trans
      (hp.trans (List.perm_insertionSort entryLE l₂).symm)
  have key : ∀ (l : List (String × Json)), (l.map Prod.fst).Nodup →
      List.Sorted entryLT (sortEntries l) := by
    intro l hnl
    have hs : List.Sorted entryLE (sortEntries l) :=
      List.sorted_insertionSort entryLE l
    have h1 : l.Pairwise (fun a b => a.1 ≠ b.1) :=
      List.pairwise_map.mp hnl
    have hne : (sortEntries l).Pairwise (fun a b => a.1 ≠ b.1) :=
      ((List.perm_insertionSort entryLE l).pairwise_iff
        (fun hab he => hab he.symm)).mpr h1
    refine (hs.and hne).imp ?_
    intro a b hab
    exact lt_of_le_of_ne hab.1 hab.2
  have h1 := key l₁ hn
  have h2 := key l₂ (by rw [← (hp.map Prod.fst).nodup_iff]; exact hn)
  exact List.eq_of_perm_of_sorted hperm h1 h2

/-- The canonical serialisation of an object only depends on the entry set
when keys are unique. -/
theorem dumps_obj_eq_of_perm {l₁ l₂ : List (String × Json)} (hp : l₁.Perm l₂)
    (hn : (l₁.map Prod.fst).Nodup) : dumps (Json.obj l₁) = dumps (Json.obj l₂) := by
  have h := sortEntries_eq_of_perm hp hn
  simp only [dumps]
  rw [h]

/-- The first match of a filter whose predicate selects exactly one member. -/
theorem filter_head_unique {α : Type} (l : List α) (p : α → Bool) (a : α)
    (ha : a ∈ l) (hpa : p a = true) (huniq : ∀ b ∈ l, p b = true → b = a) :
    (l.filter p).head? = some a := by
  induction l with
  | nil => cases ha
  | cons x xs ih =>
    by_cases hx : p x = true
    · rw [List.filter_cons_of_pos hx]
      rw [huniq x (List.mem_cons_self x xs) hx]
      rfl
    · rw [List.filter_cons_of_neg (by simpa using hx)]
      rcases List.mem_cons.mp ha with rfl | hmem
      · exact absurd hpa hx
      · exact ih hmem (fun b hb hpb => huniq b (List.mem_cons_of_mem _ hb) hpb)

/-- C4 (amended): the report parameters hash is SHA-256 of the canonical
key-sorted JSON, so two parameter objects with the same fields in any key
order hash identically; and a second submission of identical parameters
returns the first job's id with `isExisting = true` once that job is
`completed` and its creation time lies in the idempotency window
`[00:00:00, 23:59:59)` of the submission's calendar day. -/
theorem C4_parameters_hash_idempotency :
    (∀ (l₁ l₂ : List (String × Json)), l₁.Perm l₂ → (l₁.map Prod.fst).Nodup →
        generate_parameters_hash (Json.obj l₁) = generate_parameters_hash (Json.obj l₂))
    ∧ (∀ (table : List ReportJob) (now : ℚ) (new_id : String) (req : ReportRequest)
        (job : ReportJob),
        req.main_asin ≠ "" → req.competitor_asins ≠ [] →
        job ∈ table →
        job.parameters_hash = generate_parameters_hash (report_parameters_json req) →
        job.status = "completed" →
        (86400 * dayIndex now : ℚ) ≤ job.created_at →
        job.created_at < (86400 * dayIndex now + 86399 : ℚ) →
        (∀ j ∈ table, j.parameters_hash = job.parameters_hash →
          j.status = "completed" →
          (86400 * dayIndex now : ℚ) ≤ j.created_at →
          j.created_at < (86400 * dayIndex now + 86399 : ℚ) → j = job) →
        (create_competitor_report table now new_id req).1
          = { job_id := some job.id, status := "completed", existing := true,
              error := none }) := by
  constructor
  · intro l₁ l₂ hp hn
    unfold generate_parameters_hash
    rw [dumps_obj_eq_of_perm hp hn]
  · intro table now new_id req job hmain hcomp hmem hhash hstatus hge hlt huniq
    have hcheck : check_existing_report table
        (generate_parameters_hash (report_parameters_json req)) (dayIndex now)
        = some job := by
      unfold check_existing_report
      rw [filter_head_unique _ _ job hmem]
      · rw [← hhash]
        simp [hstatus, hge, hlt]
      · intro b hb hpb
        simp only [Bool.and_eq_true, beq_iff_eq, decide_eq_true_eq] at hpb
        exact huniq b hb (hpb.1.1.1.trans hhash.symm) hpb.1.1.2 hpb.1.2 hpb.2
    have hm : ((req.main_asin == "") = true) = False := by
      simp [hmain]
    have hc : (req.competitor_asins.isEmpty = true) = False := by
      simp [List.isEmpty_iff, hcomp]
    simp only [create_competitor_report, hm, hc, if_false, hcheck, hstatus]

/-- Witness for C4: two key orders of a two-field object hash identically,
and a same-day resubmission taking the idempotency path returns the stored
completed job. -/
theorem C4_parameters_hash_idempotency_witness :
    generate_parameters_hash (Json.obj [("b", Json.num 1), ("a", Json.num 2)])
      = generate_parameters_hash (Json.obj [("a", Json.num 2), ("b", Json.num 1)])
    ∧ (create_competitor_report
        [{ id := "job-9",
           parameters_hash := generate_parameters_hash (report_parameters_json c4_req),
           status := "completed", created_at := 100 }] 86000 "job-10" c4_req).1
        = { job_id := some "job-9", status := "completed", existing := true,
            error := none } :=
  ⟨C4_parameters_hash_idempotency.1 _ _ (List.Perm.swap _ _ _) (by decide),
   C4_parameters_hash_idempotency.2
      [{ id := "job-9",
         parameters_hash := generate_parameters_hash (report_parameters_json c4_req),
         status := "completed", created_at := 100 }] 86000 "job-10" c4_req
      { id := "job-9",
        parameters_hash := generate_parameters_hash (report_parameters_json c4_req),
        status := "completed", created_at := 100 }
      (by decide) (by decide) (List.mem_singleton.mpr rfl) rfl rfl
      (by decide) (by decide)
      (fun j hj _ _ _ _ => List.mem_singleton.mp hj)⟩

/-- Counterexample for C4 as literally stated: the first job is `completed`,
has the parameters hash of the request, and was created at 23:59:59 of the
same calendar day as the resubmission (timestamp 86000 of day 0), yet the
resubmission creates a fresh job (`isExisting = false`, new id) because the
lookup window ends at 23:59:59. -/
theorem C4_idempotency_counterexample :
    c4_job.status = "completed"
    ∧ dayIndex c4_job.created_at = dayIndex (86000:ℚ)
    ∧ c4_job.parameters_hash = generate_parameters_hash (report_parameters_json c4_req)
    ∧ (create_competitor_report [c4_job] 86000 "job-2" c4_req).1.existing = false
    ∧ (create_competitor_report [c4_job] 86000 "job-2" c4_req).1.job_id = some "job-2" := by
  refine ⟨rfl, by decide, rfl, ?_⟩
  have hcheck : check_existing_report [c4_job]
      (generate_parameters_hash (report_parameters_json c4_req)) (dayIndex (86000:ℚ)) = none := by
    rw [show dayIndex (86000:ℚ) = 0 by decide]
    unfold check_existing_report c4_job
    rw [show (86400 * (0:ℤ) + 86399 : ℚ) = 86399 by norm_num]
    simp
  have hm : (c4_req.main_asin == "") = false := by decide
  have hc : c4_req.competitor_asins.isEmpty = false := by decide
  simp only [create_competitor_report, hcheck, hm, hc, Bool.false_eq_true, if_false]
  exact ⟨trivial, trivial⟩

/-- Witness for C9: a raising snapshot fetch yields an empty alert list, the
batch loop processes both identifiers of a concrete batch, and a raising
alert check leaves the webhook's status table unchanged relative to a
succeeding one. -/
theorem C9_alert_failures_isolated_witness :
    check_alerts_for_asin
      { get_latest_snapshot := fun _ => .error "boom",
        get_previous_snapshot := fun _ _ => .ok none,
        get_active_rules := .ok [],
        create_alert_record := fun _ => true } "X" = []
    ∧ check_alerts_for_asins c2_env ["X", "Z"]
        = [("X", check_alerts_for_asin c2_env "X"),
           ("Z", check_alerts_for_asin c2_env "Z")]
    ∧ (check_alerts_for_asins c2_env ["X", "Z"]).map Prod.fst = ["X", "Z"]
    ∧ (process_successful_webhook [⟨some "A", none, none, none, none, []⟩] true true
          [⟨"A", "running", 0, none⟩] (fun _ => .error "down")).2
        = (process_successful_webhook [⟨some "A", none, none, none, none, []⟩] true true
          [⟨"A", "running", 0, none⟩] (fun _ => .ok [])).2 :=
  ⟨C9_alert_failures_isolated.1 _ "X" "boom" rfl,
   C9_alert_failures_isolated.2.1 c2_env ["X", "Z"],
   C9_alert_failures_isolated.2.2.1 c2_env ["X", "Z"],
   (C9_alert_failures_isolated.2.2.2 [⟨some "A", none, none, none, none, []⟩] true true
      [⟨"A", "running", 0, none⟩] (fun _ => .error "down") (fun _ => .ok [])).1⟩
